import Mathlib

/-!
Verification development for the dbmcp database MCP server.

The development shallowly embeds the server's core: the connection
configuration schema (`schemas.ts`), the two engine adapters
(`MysqlDatabaseManager`, `PostgresqlDatabaseManager`) with their
`execute`, `introspect` and `disconnect` methods, the adapter factory
`createManagerFromConfig` (`database-manager.ts`), the `explain_query`
tool handler (`index.ts`), and the `lru-cache`-backed connection
registry `connCache`.

Driver and engine behaviour (what `mysql2`/`pg` return for a query, what
the engines' `information_schema` catalogs contain) is external to the
repository; it is represented by explicit response values passed to the
embedded operations, so every adapter function is a pure function of the
adapter state and the driver responses it would receive.
-/

/-- Cell values occurring in query results and parameters:
the TypeScript union `string | number | boolean | null`. -/
inductive SqlValue where
  | str : String → SqlValue
  | num : Int → SqlValue
  | bool : Bool → SqlValue
  | null : SqlValue
deriving DecidableEq, Repr

/-- The `SqlQuery` shape from `schemas.ts`: a sql string and optional
positional parameters. -/
structure SqlQuery where
  sql : String
  params : Option (List SqlValue)
deriving DecidableEq, Repr

/-- The `SqlQueryResult` interface from `database-manager.ts`. -/
structure SqlQueryResult where
  columns : List String
  rows : List (List SqlValue)
deriving DecidableEq, Repr

/-- The `ColumnSchema` shape from `schemas.ts`. -/
structure ColumnSchema where
  name : String
  type : String
  nullable : Bool
  default_value : Option String
  primary_key : Bool
deriving DecidableEq, Repr

/-- The `ForeignKeySchema` shape from `schemas.ts`. -/
structure ForeignKeySchema where
  column : String
  foreign_table : String
  foreign_column : String
  constraint_name : String
deriving DecidableEq, Repr

/-- The `TableSchema` shape from `schemas.ts`. -/
structure TableSchema where
  name : String
  columns : List ColumnSchema
  foreign_keys : List ForeignKeySchema
deriving DecidableEq, Repr

/-- The `DatabaseLayout` shape from `schemas.ts`. -/
structure DatabaseLayout where
  name : String
  tables : List TableSchema
deriving DecidableEq, Repr

/-- The validated `ConnectionConfig` produced by
`ConnectionConfigSchema.parse` (`schemas.ts`): after parsing, `type` is
one of "postgres"/"mysql", `host` defaults to "localhost", and `port` is
a positive integer. -/
structure ConnectionConfig where
  type : String
  host : String
  port : Int
  database : String
  username : String
  password : String
deriving DecidableEq, Repr

/-- A raw (pre-validation) configuration object as it reaches
`ConnectionConfigSchema.parse`: each field may be absent, and the port
is an arbitrary JSON number (modelled as a rational, so that the zod
`.int()` check is expressible). -/
structure RawConfig where
  type : Option String
  host : Option String
  port : Option Rat
  database : Option String
  username : Option String
  password : Option String
deriving DecidableEq, Repr

/-- Error taxonomy of the embedded core: zod validation failures, the
adapter constructors' "Invalid database type", the factory's
"Unsupported database type", the adapters' "Not connected" guard, and
the tool handlers' "No connection found" lookup miss. -/
inductive DbError where
  | validation : String → DbError
  | invalidType : DbError
  | unsupported : String → DbError
  | notConnected : DbError
  | noConnectionFound : String → DbError
deriving DecidableEq, Repr

/-- Embedding of `ConnectionConfigSchema.parse` from `schemas.ts`:
`type` must be the literal "postgres" or "mysql"; `host` is a string
defaulting to "localhost"; `port` must be a positive integer number;
`database`, `username` and `password` must be present strings (note: zod
`z.string()` accepts the empty string). -/
def parseConnectionConfig (rc : RawConfig) : Except DbError ConnectionConfig :=
  match rc.type with
  | none => .error (.validation "type: Required")
  | some t =>
    if t = "postgres" ∨ t = "mysql" then
      match rc.port with
      | none => .error (.validation "port: Required")
      | some p =>
        if p.den = 1 ∧ 0 < p then
          match rc.database with
          | none => .error (.validation "database: Required")
          | some database =>
            match rc.username with
            | none => .error (.validation "username: Required")
            | some username =>
              match rc.password with
              | none => .error (.validation "password: Required")
              | some password =>
                .ok { type := t, host := rc.host.getD "localhost", port := p.num,
                      database := database, username := username,
                      password := password }
        else .error (.validation "port: Expected positive integer")
    else .error (.validation "type: Invalid input")

/-- A live driver connection handle; `endFails` records whether closing
this handle would fail (the only behaviour of the handle that
`disconnect` observes). -/
structure ConnHandle where
  endFails : Bool
deriving DecidableEq, Repr

/-- State of a `MysqlDatabaseManager` instance: its stored config and
its `conn` field (null before `connect` and after `disconnect`). -/
structure MysqlDatabaseManager where
  config : ConnectionConfig
  conn : Option ConnHandle
deriving DecidableEq, Repr

/-- State of a `PostgresqlDatabaseManager` instance. -/
structure PostgresqlDatabaseManager where
  config : ConnectionConfig
  conn : Option ConnHandle
deriving DecidableEq, Repr

/-- The `MysqlDatabaseManager` constructor: throws "Invalid database
type" unless `config.type` is "mysql"; the fresh instance has a null
`conn`. -/
def MysqlDatabaseManager.make (config : ConnectionConfig) :
    Except DbError MysqlDatabaseManager :=
  if config.type ≠ "mysql" then .error .invalidType
  else .ok { config := config, conn := none }

/-- The `PostgresqlDatabaseManager` constructor: throws "Invalid
database type" unless `config.type` is "postgres". -/
def PostgresqlDatabaseManager.make (config : ConnectionConfig) :
    Except DbError PostgresqlDatabaseManager :=
  if config.type ≠ "postgres" then .error .invalidType
  else .ok { config := config, conn := none }

/-- The `AnyDatabaseManager` union type from `database-manager.ts`. -/
inductive AnyDatabaseManager where
  | mysql : MysqlDatabaseManager → AnyDatabaseManager
  | postgres : PostgresqlDatabaseManager → AnyDatabaseManager
deriving DecidableEq, Repr

/-- Embedding of `createManagerFromConfig`: parse the config with
`ConnectionConfigSchema`, then branch on the `type` tag; the trailing
"Unsupported database type" throw mirrors the source's (unreachable
after a successful parse) fallthrough. The factory performs no I/O: it
is a pure function of the raw config. -/
def createManagerFromConfig (rc : RawConfig) : Except DbError AnyDatabaseManager :=
  match parseConnectionConfig rc with
  | .error e => .error e
  | .ok connOptions =>
    if connOptions.type = "mysql" then
      match MysqlDatabaseManager.make connOptions with
      | .error e => .error e
      | .ok m => .ok (.mysql m)
    else if connOptions.type = "postgres" then
      match PostgresqlDatabaseManager.make connOptions with
      | .error e => .error e
      | .ok p => .ok (.postgres p)
    else
      .error (.unsupported ("Unsupported database type: " ++ connOptions.type))

/-- Recognizes a zod validation failure (a thrown `ZodError`). -/
def isValidationError (r : Except DbError AnyDatabaseManager) : Bool :=
  match r with
  | .error (.validation _) => true
  | _ => false

/-- A field descriptor as returned by the drivers alongside query rows;
only its `name` is consumed by the adapters. -/
structure FieldInfo where
  name : String
deriving DecidableEq, Repr

/-- A native driver row object: a finite map from field names to cell
values, modelled as an association list. A key that is absent from the
list is absent from the row object. -/
def NativeRow : Type := List (String × SqlValue)

instance : DecidableEq NativeRow := by
  unfold NativeRow
  infer_instance

/-- The `[rows, fields]` pair returned by `mysql2`'s
`connection.execute`. -/
structure MysqlDriverResult where
  rows : List NativeRow
  fields : List FieldInfo
deriving DecidableEq

/-- The result object returned by `pg`'s `client.query`, of which the
adapter consumes `rows` and `fields`. -/
structure PgDriverResult where
  rows : List NativeRow
  fields : List FieldInfo
deriving DecidableEq

/-- The JavaScript expression `row[col] ?? null`: the row object's value
at `col`, or null when the key is absent. -/
def rowFieldOrNull (row : NativeRow) (col : String) : SqlValue :=
  (List.lookup col row).getD SqlValue.null

/-- The row-mapping lambda shared by both `execute` bodies: map a native
row object into a value array in exactly the given column order,
substituting null for any missing key. -/
def formatRowValues (columns : List String) (row : NativeRow) : List SqlValue :=
  columns.map (fun col => rowFieldOrNull row col)

/-- Lines 137-148 of the MySQL `execute`: derive `columns` from the
field metadata and format every native row against them. -/
def mysqlFormatResult (res : MysqlDriverResult) : SqlQueryResult :=
  let columns := res.fields.map (fun field => field.name)
  { columns := columns
    rows := res.rows.map (fun row => formatRowValues columns row) }

/-- Lines 295-307 of the Postgres `execute`: identical discipline to the
MySQL adapter, reading `result.fields` and `result.rows`. -/
def pgFormatResult (res : PgDriverResult) : SqlQueryResult :=
  let columns := res.fields.map (fun field => field.name)
  { columns := columns
    rows := res.rows.map (fun row => formatRowValues columns row) }

instance {ε α : Type} [DecidableEq ε] [DecidableEq α] : DecidableEq (Except ε α) :=
  fun a b =>
    match a, b with
    | .error x, .error y =>
        if h : x = y then isTrue (congrArg Except.error h)
        else isFalse (fun hc => h (Except.error.inj hc))
    | .ok x, .ok y =>
        if h : x = y then isTrue (congrArg Except.ok h)
        else isFalse (fun hc => h (Except.ok.inj hc))
    | .error _, .ok _ => isFalse (fun hc => Except.noConfusion hc)
    | .ok _, .error _ => isFalse (fun hc => Except.noConfusion hc)

/-- Outcome of an embedded `execute` call: the returned value or thrown
error, together with the list of queries actually issued to the driver
(empty when the not-connected guard fires first). -/
structure ExecOutcome where
  result : Except DbError SqlQueryResult
  driverCalls : List SqlQuery
deriving DecidableEq

/-- Embedding of `MysqlDatabaseManager.execute`: throw "Not connected"
when `conn` is null (before any driver call); otherwise issue the query
to the driver and normalize its response. The driver's behaviour is the
function `driver` from queries to responses. -/
def MysqlDatabaseManager.execute (m : MysqlDatabaseManager) (query : SqlQuery)
    (driver : SqlQuery → MysqlDriverResult) : ExecOutcome :=
  match m.conn with
  | none => { result := .error .notConnected, driverCalls := [] }
  | some _ =>
      { result := .ok (mysqlFormatResult (driver query)), driverCalls := [query] }

/-- Embedding of `PostgresqlDatabaseManager.execute`: same guard and
normalization against the `pg` driver. -/
def PostgresqlDatabaseManager.execute (p : PostgresqlDatabaseManager) (args : SqlQuery)
    (driver : SqlQuery → PgDriverResult) : ExecOutcome :=
  match p.conn with
  | none => { result := .error .notConnected, driverCalls := [] }
  | some _ =>
      { result := .ok (pgFormatResult (driver args)), driverCalls := [args] }

/-- Outcome of an embedded `disconnect` call. `disconnect` is a total
function (it never throws: a failing close is caught and logged);
`closeAttempts` counts calls to the handle's `end`, and `loggedErrors`
counts errors logged by the catch block. -/
structure DisconnectOutcome (M : Type) where
  manager : M
  closeAttempts : Nat
  loggedErrors : Nat
deriving DecidableEq

/-- Embedding of `MysqlDatabaseManager.disconnect`: return immediately
when `conn` is already null; otherwise attempt `conn.end()`, log (and
swallow) any close error, and clear the handle unconditionally. -/
def MysqlDatabaseManager.disconnect (m : MysqlDatabaseManager) :
    DisconnectOutcome MysqlDatabaseManager :=
  match m.conn with
  | none => { manager := m, closeAttempts := 0, loggedErrors := 0 }
  | some c =>
      { manager := { m with conn := none }
        closeAttempts := 1
        loggedErrors := if c.endFails then 1 else 0 }

/-- Embedding of `PostgresqlDatabaseManager.disconnect`: same discipline
as the MySQL adapter. -/
def PostgresqlDatabaseManager.disconnect (p : PostgresqlDatabaseManager) :
    DisconnectOutcome PostgresqlDatabaseManager :=
  match p.conn with
  | none => { manager := p, closeAttempts := 0, loggedErrors := 0 }
  | some c =>
      { manager := { p with conn := none }
        closeAttempts := 1
        loggedErrors := if c.endFails then 1 else 0 }

/-- Dispatching `disconnect` through the `AnyDatabaseManager` union. -/
def AnyDatabaseManager.disconnect (v : AnyDatabaseManager) :
    DisconnectOutcome AnyDatabaseManager :=
  match v with
  | .mysql m =>
      let d := m.disconnect
      { manager := .mysql d.manager, closeAttempts := d.closeAttempts,
        loggedErrors := d.loggedErrors }
  | .postgres p =>
      let d := p.disconnect
      { manager := .postgres d.manager, closeAttempts := d.closeAttempts,
        loggedErrors := d.loggedErrors }

/-- The connection handle of either adapter variant. -/
def AnyDatabaseManager.connOf (v : AnyDatabaseManager) : Option ConnHandle :=
  match v with
  | .mysql m => m.conn
  | .postgres p => p.conn

/-- The JavaScript expression `v || fallback` on an optional string:
a missing value and the empty string (falsy) both yield the fallback. -/
def jsStrOr (v : Option String) (fallback : String) : String :=
  match v with
  | some s => if s = "" then fallback else s
  | none => fallback

/-- One row of the MySQL introspection's per-table columns query
(`information_schema.columns`, ordered by ordinal position). -/
structure MysqlColumnRow where
  column_name : String
  data_type : String
  is_nullable : String
  column_default : Option String
  column_key : String
deriving DecidableEq, Repr

/-- One row of the MySQL introspection's per-table foreign-key query
(`information_schema.key_column_usage` with a non-null referenced
table). -/
structure MysqlFkRow where
  column_name : String
  referenced_table_name : String
  referenced_column_name : String
  constraint_name : String
deriving DecidableEq, Repr

/-- Responses of the MySQL engine to the four introspection queries:
the `SELECT DATABASE()` value of the first result row (absent when the
result is empty or lacks the field), the table listing for the
configured schema, and per table the column rows (in ordinal order) and
the foreign-key rows. -/
structure MysqlCatalog where
  db_name : Option String
  tables : List String
  columnsOf : String → List MysqlColumnRow
  fksOf : String → List MysqlFkRow

/-- The column-row mapping of the MySQL `introspect` (source lines
85-91): a column is flagged primary key exactly when its `COLUMN_KEY`
indicator is "PRI". -/
def mysqlMapColumn (col : MysqlColumnRow) : ColumnSchema :=
  { name := col.column_name
    type := col.data_type
    nullable := col.is_nullable == "YES"
    default_value := col.column_default
    primary_key := col.column_key == "PRI" }

/-- The foreign-key-row mapping of the MySQL `introspect` (source lines
111-116). -/
def mysqlMapFk (fk : MysqlFkRow) : ForeignKeySchema :=
  { column := fk.column_name
    foreign_table := fk.referenced_table_name
    foreign_column := fk.referenced_column_name
    constraint_name := fk.constraint_name }

/-- The connected body of `MysqlDatabaseManager.introspect`: database
name with `|| this.config.database` fallback, then one `TableSchema` per
listed table, assembled in the listing order. -/
def mysqlIntrospectLayout (config : ConnectionConfig) (cat : MysqlCatalog) :
    DatabaseLayout :=
  { name := jsStrOr cat.db_name config.database
    tables := cat.tables.map (fun table_name =>
      { name := table_name
        columns := (cat.columnsOf table_name).map mysqlMapColumn
        foreign_keys := (cat.fksOf table_name).map mysqlMapFk }) }

/-- Outcome of an embedded `introspect` call: the returned layout or
thrown error, and the number of queries issued to the driver. -/
structure IntrospectOutcome where
  result : Except DbError DatabaseLayout
  driverCalls : Nat

/-- Embedding of `MysqlDatabaseManager.introspect`: throw "Not
connected" when `conn` is null, before any query; otherwise run the name
query, the table listing, and two queries per table. -/
def MysqlDatabaseManager.introspect (m : MysqlDatabaseManager)
    (cat : MysqlCatalog) : IntrospectOutcome :=
  match m.conn with
  | none => { result := .error .notConnected, driverCalls := 0 }
  | some _ =>
      { result := .ok (mysqlIntrospectLayout m.config cat)
        driverCalls := 2 + 2 * cat.tables.length }

/-- One row of the Postgres introspection's per-table columns query:
`information_schema.columns` left-joined against the primary-key lookup,
so `is_primary_key` arrives as a boolean computed by the engine. -/
structure PgColumnRow where
  column_name : String
  data_type : String
  is_nullable : String
  column_default : Option String
  is_primary_key : Bool
deriving DecidableEq, Repr

/-- One row of the Postgres introspection's per-table foreign-key query
(three-way join over constraint metadata, filtered to FOREIGN KEY
constraints in schema public). -/
structure PgFkRow where
  column_name : String
  foreign_table_name : String
  foreign_column_name : String
  constraint_name : String
deriving DecidableEq, Repr

/-- Responses of the Postgres engine to the introspection queries,
taken at the driver boundary. The tables listing is kept as the raw row
objects the `pg` driver returns: the source selects the unquoted,
unaliased identifier `TABLE_NAME`, which a live engine folds to
lowercase, so each listing row arrives keyed "table_name". The
per-table responses are indexed by the JavaScript value the code binds
for `$1` (`none` models `undefined`, which the driver serializes as
null, matching no table). -/
structure PgCatalog where
  db_name : Option String
  tablesRows : List NativeRow
  columnsOf : Option SqlValue → List PgColumnRow
  fksOf : Option SqlValue → List PgFkRow

/-- The column-row mapping of the Postgres `introspect` (source lines
226-240). -/
def pgMapColumn (col : PgColumnRow) : ColumnSchema :=
  { name := col.column_name
    type := col.data_type
    nullable := col.is_nullable == "YES"
    default_value := col.column_default
    primary_key := col.is_primary_key }

/-- The foreign-key-row mapping of the Postgres `introspect` (source
lines 261-273). -/
def pgMapFk (fk : PgFkRow) : ForeignKeySchema :=
  { column := fk.column_name
    foreign_table := fk.foreign_table_name
    foreign_column := fk.foreign_column_name
    constraint_name := fk.constraint_name }

/-- The runtime shape of one table schema produced by the Postgres
`introspect`: the source annotates the destructured `TABLE_NAME` as a
string, but the value actually read off a live listing row (keyed
"table_name") is undefined, so the embedded `name` is a possibly-absent
JavaScript value. -/
structure PgTableSchema where
  name : Option SqlValue
  columns : List ColumnSchema
  foreign_keys : List ForeignKeySchema
deriving DecidableEq, Repr

/-- The runtime shape of the Postgres `introspect` result. -/
structure PgDatabaseLayout where
  name : String
  tables : List PgTableSchema
deriving DecidableEq, Repr

/-- The connected body of `PostgresqlDatabaseManager.introspect`: the
`({ TABLE_NAME })` destructure is a case-sensitive property access on
each raw listing row (undefined when the row is keyed otherwise, as a
live engine keys it "table_name"); that same value is bound as `$1` of
both per-table queries and stored as the table's `name`. -/
def pgIntrospectLayout (config : ConnectionConfig) (cat : PgCatalog) :
    PgDatabaseLayout :=
  { name := jsStrOr cat.db_name config.database
    tables := cat.tablesRows.map (fun row =>
      let TABLE_NAME : Option SqlValue := List.lookup "TABLE_NAME" row
      { name := TABLE_NAME
        columns := (cat.columnsOf TABLE_NAME).map pgMapColumn
        foreign_keys := (cat.fksOf TABLE_NAME).map pgMapFk }) }

/-- Outcome of the embedded Postgres `introspect`. -/
structure PgIntrospectOutcome where
  result : Except DbError PgDatabaseLayout
  driverCalls : Nat

/-- Embedding of `PostgresqlDatabaseManager.introspect`: the
"Not connected" guard before any query, then the name query, the table
listing, and two queries per listing row. -/
def PostgresqlDatabaseManager.introspect (p : PostgresqlDatabaseManager)
    (cat : PgCatalog) : PgIntrospectOutcome :=
  match p.conn with
  | none => { result := .error .notConnected, driverCalls := 0 }
  | some _ =>
      { result := .ok (pgIntrospectLayout p.config cat)
        driverCalls := 2 + 2 * cat.tablesRows.length }

/-- The input shape `ExplainQuerySchema` after parsing: `analyze` has
its zod default `false` already applied. -/
structure ExplainQueryInput where
  sql : String
  params : Option (List SqlValue)
  analyze : Bool
deriving DecidableEq, Repr

/-- What the `explain_query` handler produces on success: the query it
passed to the session adapter's `execute`, the resulting `QueryResult`,
and the `originalQuery`/`withAnalysis` echo placed in
`structuredContent`. -/
structure ExplainOutcome where
  executed : SqlQuery
  result : SqlQueryResult
  originalQuery : String
  withAnalysis : Bool
deriving DecidableEq

/-- Embedding of the `explain_query` tool handler body after the cache
lookup (`index.ts` lines 243-272): build the EXPLAIN query from the
`analyze` flag, delegate to the session adapter's `execute` with the
original params, and echo the original sql and the analyze flag. -/
def explainQueryHandler (mgr : AnyDatabaseManager) (query : ExplainQueryInput)
    (mysqlDriver : SqlQuery → MysqlDriverResult)
    (pgDriver : SqlQuery → PgDriverResult) : Except DbError ExplainOutcome :=
  let explainQuery : String :=
    if query.analyze then "EXPLAIN ANALYZE " ++ query.sql
    else "EXPLAIN " ++ query.sql
  let executed : SqlQuery := { sql := explainQuery, params := query.params }
  match mgr with
  | .mysql m =>
      match (m.execute executed mysqlDriver).result with
      | .error e => .error e
      | .ok r =>
          .ok { executed := executed, result := r,
                originalQuery := query.sql, withAnalysis := query.analyze }
  | .postgres p =>
      match (p.execute executed pgDriver).result with
      | .error e => .error e
      | .ok r =>
          .ok { executed := executed, result := r,
                originalQuery := query.sql, withAnalysis := query.analyze }

/-- One registry entry: key, stored value, and the (millisecond) time it
was inserted, from which its time-to-live is measured. -/
structure CacheEntry (α : Type) where
  key : String
  value : α
  insertedAt : Nat
deriving DecidableEq

/-- Modelled from the spec: the `lru-cache` dependency backing
`connCache` is not part of the repository's sources, so the registry is
modelled per the spec's §4.5/§5 description of its behaviour — a
capacity-bounded, fixed time-to-live key-value store whose `set` evicts
the least recently used entry at capacity and whose TTL runs from
insertion without renewal on `get` (the repository configures neither
`updateAgeOnGet` nor `ttlAutopurge`). `entries` is ordered most recently
used first. -/
structure LruCache (α : Type) where
  maxEntries : Nat
  ttl : Nat
  entries : List (CacheEntry α)
deriving DecidableEq

/-- The entry currently stored under key `k`, if any. -/
def LruCache.findEntry {α : Type} (c : LruCache α) (k : String) :
    Option (CacheEntry α) :=
  c.entries.find? (fun e => e.key == k)

/-- All entries except those stored under key `k`. -/
def LruCache.removeKey {α : Type} (c : LruCache α) (k : String) :
    List (CacheEntry α) :=
  c.entries.filter (fun e => !(e.key == k))

/-- Modelled from the spec: `set` inserts `k ↦ v` as most recently used.
Overwriting an existing key disposes the old value; inserting a fresh
key into a cache at capacity first evicts the least recently used entry
(the last of `entries`) and disposes it. The second component lists the
values whose disposal hook fires, in order. -/
def LruCache.set {α : Type} (c : LruCache α) (now : Nat) (k : String) (v : α) :
    LruCache α × List α :=
  match c.findEntry k with
  | some old =>
      ({ c with entries := ⟨k, v, now⟩ :: c.removeKey k }, [old.value])
  | none =>
      if c.maxEntries ≤ c.entries.length then
        match c.entries.getLast? with
        | some lru =>
            ({ c with entries := ⟨k, v, now⟩ :: c.entries.dropLast }, [lru.value])
        | none => ({ c with entries := [⟨k, v, now⟩] }, [])
      else
        ({ c with entries := ⟨k, v, now⟩ :: c.entries }, [])

/-- Modelled from the spec: `get` at time `now` returns the live value
under `k` and marks it most recently used without touching its
insertion time (no keep-alive/renewal-on-use); an entry aged past the
TTL is removed, its disposal hook fires, and the lookup misses.
Components: looked-up value, cache afterwards, disposed values. -/
def LruCache.get {α : Type} (c : LruCache α) (now : Nat) (k : String) :
    Option α × LruCache α × List α :=
  match c.findEntry k with
  | none => (none, c, [])
  | some e =>
      if c.ttl < now - e.insertedAt then
        (none, { c with entries := c.removeKey k }, [e.value])
      else
        (some e.value, { c with entries := e :: c.removeKey k }, [])

/-- The `connCache` configuration from `index.ts`: `max: 100` and
`ttl: 1000 * 60 * 5` milliseconds, holding `AnyDatabaseManager`
values. -/
def connCacheOf (entries : List (CacheEntry AnyDatabaseManager)) :
    LruCache AnyDatabaseManager :=
  { maxEntries := 100, ttl := 1000 * 60 * 5, entries := entries }

/-- Result of firing the `connCache` disposal hook on one value. -/
structure DisposeOutcome where
  manager : AnyDatabaseManager
  loggedErrors : Nat
deriving DecidableEq

/-- The `dispose` callback configured on `connCache` (`index.ts` lines
134-138): invoke the evicted adapter's `disconnect` and route any
failure to the logging sink via `.catch`; the hook itself is total and
never re-raises. -/
def connCacheDispose (value : AnyDatabaseManager) : DisposeOutcome :=
  let d := value.disconnect
  { manager := d.manager, loggedErrors := d.loggedErrors }

/-- The session lookup shared by the `inspect_database`,
`execute_query` and `explain_query` handlers (`index.ts` lines
181-183): `connCache.get(connectionId)` followed by the
"No connection found" throw on a miss. -/
def lookupConn (c : LruCache AnyDatabaseManager) (now : Nat)
    (connectionId : String) :
    Except DbError AnyDatabaseManager × LruCache AnyDatabaseManager
      × List AnyDatabaseManager :=
  let r := c.get now connectionId
  match r.1 with
  | none => (.error (.noConnectionFound connectionId), r.2.1, r.2.2)
  | some mgr => (.ok mgr, r.2.1, r.2.2)

/-- A fixed MySQL configuration used as a concrete test fixture. -/
def wCfgMysql : ConnectionConfig :=
  { type := "mysql", host := "localhost", port := 3306,
    database := "db", username := "u", password := "p" }

/-- A fixed Postgres configuration used as a concrete test fixture. -/
def wCfgPg : ConnectionConfig :=
  { type := "postgres", host := "localhost", port := 5432,
    database := "db", username := "u", password := "p" }

/-- A live handle whose close succeeds. -/
def wHandle : ConnHandle := { endFails := false }

/-- A connected MySQL adapter fixture. -/
def wMysqlMgr : MysqlDatabaseManager := { config := wCfgMysql, conn := some wHandle }

/-- A connected Postgres adapter fixture. -/
def wPgMgr : PostgresqlDatabaseManager := { config := wCfgPg, conn := some wHandle }

/-- Case analysis of the config parser: it fails with a zod validation
error, or it succeeds and the raw config had every required field
present, a legal engine tag and a positive integral port. -/
theorem parseConnectionConfig_spec (rc : RawConfig) :
    (∃ msg, parseConnectionConfig rc = .error (DbError.validation msg)) ∨
    (∃ cfg, parseConnectionConfig rc = .ok cfg ∧ rc.type = some cfg.type ∧
      (cfg.type = "postgres" ∨ cfg.type = "mysql") ∧
      (∃ p, rc.port = some p ∧ p.den = 1 ∧ 0 < p) ∧
      rc.database ≠ none ∧ rc.username ≠ none ∧ rc.password ≠ none) := by
  obtain ⟨ty, ho, po, da, us, pa⟩ := rc
  cases ty with
  | none => exact Or.inl ⟨"type: Required", rfl⟩
  | some t =>
    by_cases htv : t = "postgres" ∨ t = "mysql"
    · cases po with
      | none =>
        refine Or.inl ⟨"port: Required", ?_⟩
        simp only [parseConnectionConfig]
        rw [if_pos htv]
      | some p =>
        by_cases hpv : p.den = 1 ∧ 0 < p
        · cases da with
          | none =>
            refine Or.inl ⟨"database: Required", ?_⟩
            simp only [parseConnectionConfig]
            rw [if_pos htv, if_pos hpv]
          | some database =>
            cases us with
            | none =>
              refine Or.inl ⟨"username: Required", ?_⟩
              simp only [parseConnectionConfig]
              rw [if_pos htv, if_pos hpv]
            | some username =>
              cases pa with
              | none =>
                refine Or.inl ⟨"password: Required", ?_⟩
                simp only [parseConnectionConfig]
                rw [if_pos htv, if_pos hpv]
              | some password =>
                refine Or.inr ⟨⟨t, ho.getD "localhost", p.num, database,
                  username, password⟩, ?_, rfl, htv, ⟨p, rfl, hpv.1, hpv.2⟩,
                  by simp, by simp, by simp⟩
                simp only [parseConnectionConfig]
                rw [if_pos htv, if_pos hpv]
        · refine Or.inl ⟨"port: Expected positive integer", ?_⟩
          simp only [parseConnectionConfig]
          rw [if_pos htv, if_neg hpv]
    · refine Or.inl ⟨"type: Invalid input", ?_⟩
      simp only [parseConnectionConfig]
      rw [if_neg htv]

/-- A parse failure propagates through the factory unchanged. -/
theorem createManagerFromConfig_of_parse_err (rc : RawConfig) (e : DbError)
    (h : parseConnectionConfig rc = .error e) :
    createManagerFromConfig rc = .error e := by
  unfold createManagerFromConfig
  rw [h]

/-- A raw config that is structurally complete but has an empty-string
`database` field. -/
def rcEmptyStrings : RawConfig :=
  { type := some "mysql", host := some "localhost", port := some 3306,
    database := some "", username := some "u", password := some "p" }

/-- C8 counterexample: a config whose required `database` string is
empty passes `ConnectionConfigSchema.parse` (zod `z.string()` has no
minimum length) and the factory constructs a MySQL adapter, so the
claimed validation failure for "empty strings where required" does not
occur. -/
theorem C8_counterexample_empty_string_accepted :
    rcEmptyStrings.database = some "" ∧
    createManagerFromConfig rcEmptyStrings =
      .ok (.mysql { config := { type := "mysql", host := "localhost",
                                port := 3306, database := "", username := "u",
                                password := "p" },
                    conn := none }) := by
  constructor
  · rfl
  · decide

/-- C8 (amended): `createManagerFromConfig` fails with a validation
error whenever a required field (`type`, `port`, `database`, `username`,
`password`) is missing or the port is not a positive integer; no adapter
is constructed in those cases. Empty required strings, however, are
accepted. -/
theorem C8_factory_validation (rc : RawConfig)
    (h : rc.type = none ∨ rc.port = none ∨ rc.database = none ∨
      rc.username = none ∨ rc.password = none ∨
      ∃ p, rc.port = some p ∧ (p.den ≠ 1 ∨ p ≤ 0)) :
    isValidationError (createManagerFromConfig rc) = true := by
  rcases parseConnectionConfig_spec rc with ⟨msg, hm⟩ |
    ⟨cfg, _, htype, _, ⟨p, hp, hden, hpos⟩, hd, hu, hpw⟩
  · rw [createManagerFromConfig_of_parse_err rc _ hm]
    rfl
  · exfalso
    rcases h with h | h | h | h | h | ⟨q, hq, hbad⟩
    · rw [h] at htype; exact Option.noConfusion htype
    · rw [h] at hp; exact Option.noConfusion hp
    · exact hd h
    · exact hu h
    · exact hpw h
    · rw [hq] at hp
      injection hp with hqp
      rcases hbad with hbad | hbad
      · exact hbad (hqp ▸ hden)
      · rw [hqp] at hbad
        exact absurd hpos (not_lt.mpr hbad)

/-- C8 witness: a config with port `-1` is rejected with a validation
error. -/
theorem C8_factory_validation_witness :
    isValidationError (createManagerFromConfig
      { type := some "mysql", host := none, port := some (-1),
        database := some "db", username := some "u",
        password := some "p" }) = true := by
  exact C8_factory_validation _
    (Or.inr (Or.inr (Or.inr (Or.inr (Or.inr
      ⟨-1, rfl, Or.inr (by norm_num)⟩)))))

/-- C9: a config whose engine tag lies outside the supported set (for
example "oracle") is rejected by the zod literal union with a validation
error; the factory constructs no adapter, and the embedded factory is a
pure function, so the call performs no I/O. -/
theorem C9_unsupported_engine_rejected (rc : RawConfig) (t : String)
    (ht : rc.type = some t) (h1 : t ≠ "mysql") (h2 : t ≠ "postgres") :
    isValidationError (createManagerFromConfig rc) = true ∧
    ∀ m, createManagerFromConfig rc ≠ .ok m := by
  rcases parseConnectionConfig_spec rc with ⟨msg, hm⟩ |
    ⟨cfg, _, htype, htv, _⟩
  · have hfac := createManagerFromConfig_of_parse_err rc _ hm
    constructor
    · rw [hfac]; rfl
    · intro m hc
      rw [hfac] at hc
      exact Except.noConfusion hc
  · exfalso
    rw [ht] at htype
    injection htype with he
    rcases htv with htv | htv
    · exact h2 (he ▸ htv)
    · exact h1 (he ▸ htv)

/-- C9 witness: engine tag "oracle" is rejected with a validation
error. -/
theorem C9_unsupported_engine_rejected_witness :
    isValidationError (createManagerFromConfig
      { type := some "oracle", host := some "localhost", port := some 1521,
        database := some "db", username := some "u",
        password := some "p" }) = true :=
  (C9_unsupported_engine_rejected _ "oracle" rfl (by decide) (by decide)).1

/-- C7: `execute` and `introspect` on an adapter whose connection handle
is null (in particular a freshly constructed one) fail with the
"Not connected" error and issue no driver call, for both adapters.
`driverCalls` records every query that would reach the driver; the guard
fires before any of them. -/
theorem C7_not_connected_guard (m : MysqlDatabaseManager)
    (p : PostgresqlDatabaseManager) (hm : m.conn = none) (hp : p.conn = none)
    (q1 q2 : SqlQuery) (md : SqlQuery → MysqlDriverResult)
    (pd : SqlQuery → PgDriverResult) (mcat : MysqlCatalog) (pcat : PgCatalog) :
    m.execute q1 md = { result := .error .notConnected, driverCalls := [] } ∧
    m.introspect mcat = { result := .error .notConnected, driverCalls := 0 } ∧
    p.execute q2 pd = { result := .error .notConnected, driverCalls := [] } ∧
    p.introspect pcat = { result := .error .notConnected, driverCalls := 0 } := by
  refine ⟨?_, ?_, ?_, ?_⟩
  · unfold MysqlDatabaseManager.execute
    rw [hm]
  · unfold MysqlDatabaseManager.introspect
    rw [hm]
  · unfold PostgresqlDatabaseManager.execute
    rw [hp]
  · unfold PostgresqlDatabaseManager.introspect
    rw [hp]

/-- C7 witness: a freshly constructed (never connected) adapter of each
engine rejects `execute` with no driver call. -/
theorem C7_not_connected_guard_witness :
    MysqlDatabaseManager.execute { config := wCfgMysql, conn := none }
        { sql := "SELECT 1", params := none } (fun _ => { rows := [], fields := [] })
      = { result := .error .notConnected, driverCalls := [] } ∧
    PostgresqlDatabaseManager.execute { config := wCfgPg, conn := none }
        { sql := "SELECT 1", params := none } (fun _ => { rows := [], fields := [] })
      = { result := .error .notConnected, driverCalls := [] } := by
  have h := C7_not_connected_guard
    { config := wCfgMysql, conn := none } { config := wCfgPg, conn := none }
    rfl rfl
    { sql := "SELECT 1", params := none } { sql := "SELECT 1", params := none }
    (fun _ => { rows := [], fields := [] }) (fun _ => { rows := [], fields := [] })
    { db_name := none, tables := [], columnsOf := fun _ => [], fksOf := fun _ => [] }
    { db_name := none, tablesRows := [], columnsOf := fun _ => [], fksOf := fun _ => [] }
  exact ⟨h.1, h.2.2.1⟩

/-- C6: `disconnect` is total in the embedding (the underlying close
error is caught and logged, never re-raised), leaves the connection
handle null, and a second immediate `disconnect` is a no-op: it makes
no further close attempt, logs nothing, and leaves the state
unchanged — for both adapters. -/
theorem C6_disconnect_idempotent (m : MysqlDatabaseManager)
    (p : PostgresqlDatabaseManager) :
    m.disconnect.manager.conn = none ∧
    m.disconnect.manager.disconnect =
      { manager := m.disconnect.manager, closeAttempts := 0, loggedErrors := 0 } ∧
    p.disconnect.manager.conn = none ∧
    p.disconnect.manager.disconnect =
      { manager := p.disconnect.manager, closeAttempts := 0, loggedErrors := 0 } := by
  obtain ⟨mc, mconn⟩ := m
  obtain ⟨pc, pconn⟩ := p
  cases mconn <;> cases pconn <;>
    simp [MysqlDatabaseManager.disconnect, PostgresqlDatabaseManager.disconnect]

/-- C2: for every successful `execute` on either adapter, each result
row has exactly as many cells as there are columns (they are built by
mapping the column list), and a field absent from a row's native driver
representation is normalized to null at that column's position rather
than omitted. -/
theorem C2_row_alignment :
    (∀ (m : MysqlDatabaseManager) (q : SqlQuery) (d : SqlQuery → MysqlDriverResult)
      (res : SqlQueryResult), (m.execute q d).result = .ok res →
      ∀ row ∈ res.rows, row.length = res.columns.length) ∧
    (∀ (p : PostgresqlDatabaseManager) (q : SqlQuery) (d : SqlQuery → PgDriverResult)
      (res : SqlQueryResult), (p.execute q d).result = .ok res →
      ∀ row ∈ res.rows, row.length = res.columns.length) ∧
    (∀ (columns : List String) (nrow : NativeRow) (i : Nat)
      (h1 : i < columns.length)
      (h2 : i < (formatRowValues columns nrow).length),
      List.lookup (columns.get ⟨i, h1⟩) nrow = none →
      (formatRowValues columns nrow).get ⟨i, h2⟩ = SqlValue.null) := by
  refine ⟨?_, ?_, ?_⟩
  · intro m q d res hres row hrow
    cases mc : m.conn with
    | none =>
      unfold MysqlDatabaseManager.execute at hres
      rw [mc] at hres
      simp at hres
    | some c =>
      unfold MysqlDatabaseManager.execute at hres
      rw [mc] at hres
      simp at hres
      subst hres
      simp only [mysqlFormatResult, List.mem_map] at hrow
      obtain ⟨nrow, _, rfl⟩ := hrow
      simp [formatRowValues, mysqlFormatResult]
  · intro p q d res hres row hrow
    cases pc : p.conn with
    | none =>
      unfold PostgresqlDatabaseManager.execute at hres
      rw [pc] at hres
      simp at hres
    | some c =>
      unfold PostgresqlDatabaseManager.execute at hres
      rw [pc] at hres
      simp at hres
      subst hres
      simp only [pgFormatResult, List.mem_map] at hrow
      obtain ⟨nrow, _, rfl⟩ := hrow
      simp [formatRowValues, pgFormatResult]
  · intro columns nrow i h1 h2 hlook
    simp only [formatRowValues, List.getElem_map, List.get_eq_getElem]
    unfold rowFieldOrNull
    rw [List.get_eq_getElem] at hlook
    rw [hlook]
    rfl

/-- A driver response with one row that lacks the second field. -/
def wDriverRes : MysqlDriverResult :=
  { rows := [[("a", SqlValue.num 1)]], fields := [{ name := "a" }, { name := "b" }] }

/-- A constant MySQL driver behaviour fixture. -/
def wMD : SqlQuery → MysqlDriverResult := fun _ => wDriverRes

/-- A simple query fixture. -/
def wQ : SqlQuery := { sql := "SELECT 1", params := none }

/-- The normalized result of `wDriverRes`. -/
def wExecRes : SqlQueryResult := mysqlFormatResult wDriverRes

/-- C2 witness: the single result row of `wDriverRes` has two cells for
the two columns, with null substituted at the absent field "b". -/
theorem C2_row_alignment_witness :
    ([SqlValue.num 1, SqlValue.null] : List SqlValue).length =
      wExecRes.columns.length ∧
    (formatRowValues ["a", "b"] [("a", SqlValue.num 1)]).get ⟨1, by decide⟩ =
      SqlValue.null := by
  constructor
  · exact C2_row_alignment.1 wMysqlMgr wQ wMD wExecRes rfl
      [SqlValue.num 1, SqlValue.null] (by decide)
  · exact C2_row_alignment.2.2 ["a", "b"] [("a", SqlValue.num 1)] 1 (by decide)
      (by decide) (by decide)

/-- The EXPLAIN rewrite computed by the `explain_query` handler from
the `analyze` flag and the original sql, independent of the session's
engine. -/
def explainSqlOf (q : ExplainQueryInput) : String :=
  (if q.analyze then "EXPLAIN ANALYZE " else "EXPLAIN ") ++ q.sql

/-- C3: for a live session of either engine, the `explain_query` handler
passes to the session adapter's `execute` exactly the string "EXPLAIN "
(or "EXPLAIN ANALYZE " when `analyze` is set) followed by the original
sql, with the original params unchanged, and returns the resulting
`QueryResult` together with the original sql and the analyze flag. -/
theorem C3_explain_passthrough (cfgm cfgp : ConnectionConfig)
    (c1 c2 : ConnHandle) (q : ExplainQueryInput)
    (md : SqlQuery → MysqlDriverResult) (pd : SqlQuery → PgDriverResult) :
    (q.analyze = false → explainSqlOf q = "EXPLAIN " ++ q.sql) ∧
    (q.analyze = true → explainSqlOf q = "EXPLAIN ANALYZE " ++ q.sql) ∧
    explainQueryHandler (.mysql { config := cfgm, conn := some c1 }) q md pd =
      .ok { executed := { sql := explainSqlOf q, params := q.params },
            result := mysqlFormatResult (md { sql := explainSqlOf q, params := q.params }),
            originalQuery := q.sql, withAnalysis := q.analyze } ∧
    explainQueryHandler (.postgres { config := cfgp, conn := some c2 }) q md pd =
      .ok { executed := { sql := explainSqlOf q, params := q.params },
            result := pgFormatResult (pd { sql := explainSqlOf q, params := q.params }),
            originalQuery := q.sql, withAnalysis := q.analyze } := by
  obtain ⟨sql, params, analyze⟩ := q
  cases analyze with
  | false => exact ⟨fun _ => rfl, fun h => Bool.noConfusion h, rfl, rfl⟩
  | true => exact ⟨fun h => Bool.noConfusion h, fun _ => rfl, rfl, rfl⟩

/-- An explain request fixture: `SELECT 1` without analysis. -/
def wEQ : ExplainQueryInput := { sql := "SELECT 1", params := none, analyze := false }

/-- A MySQL driver fixture returning an empty plan. -/
def wMD2 : SqlQuery → MysqlDriverResult :=
  fun _ => { rows := [], fields := [{ name := "EXPLAIN" }] }

/-- A Postgres driver fixture returning an empty plan. -/
def wPD2 : SqlQuery → PgDriverResult :=
  fun _ => { rows := [], fields := [{ name := "QUERY PLAN" }] }

/-- C3 witness: `explain({sql:"SELECT 1", analyze:false})` against a
live MySQL session runs literally "EXPLAIN SELECT 1" and echoes the
original query. -/
theorem C3_explain_passthrough_witness :
    explainSqlOf wEQ = "EXPLAIN " ++ "SELECT 1" ∧
    explainQueryHandler (.mysql wMysqlMgr) wEQ wMD2 wPD2 =
      .ok { executed := { sql := "EXPLAIN SELECT 1", params := none },
            result := mysqlFormatResult
              (wMD2 { sql := "EXPLAIN SELECT 1", params := none }),
            originalQuery := "SELECT 1", withAnalysis := false } := by
  have h := C3_explain_passthrough wCfgMysql wCfgPg wHandle wHandle wEQ wMD2 wPD2
  exact ⟨h.1 rfl, h.2.2.1⟩

/-- C10: the EXPLAIN rewrite is independent of the session's engine —
whenever the handler succeeds against a MySQL-backed and a
Postgres-backed session on the same `{sql, analyze, params}` input, the
query it handed to `execute` is identical, and equal to the rewrite
computed from the input alone. -/
theorem C10_explain_rewrite_engine_independent (m : MysqlDatabaseManager)
    (p : PostgresqlDatabaseManager) (q : ExplainQueryInput)
    (md : SqlQuery → MysqlDriverResult) (pd : SqlQuery → PgDriverResult)
    (o1 o2 : ExplainOutcome)
    (h1 : explainQueryHandler (.mysql m) q md pd = .ok o1)
    (h2 : explainQueryHandler (.postgres p) q md pd = .ok o2) :
    o1.executed = o2.executed ∧
    o1.executed = { sql := explainSqlOf q, params := q.params } := by
  obtain ⟨sql, params, analyze⟩ := q
  obtain ⟨mcf, mconn⟩ := m
  obtain ⟨pcf, pconn⟩ := p
  cases mconn with
  | none => simp [explainQueryHandler, MysqlDatabaseManager.execute] at h1
  | some c1 =>
    cases pconn with
    | none => simp [explainQueryHandler, PostgresqlDatabaseManager.execute] at h2
    | some c2 =>
      simp only [explainQueryHandler, MysqlDatabaseManager.execute,
        PostgresqlDatabaseManager.execute, Except.ok.injEq] at h1 h2
      rw [← h1, ← h2]
      cases analyze <;> exact ⟨rfl, rfl⟩

/-- The MySQL handler outcome at `wEQ`. -/
def wO1 : ExplainOutcome :=
  { executed := { sql := "EXPLAIN SELECT 1", params := none },
    result := mysqlFormatResult (wMD2 { sql := "EXPLAIN SELECT 1", params := none }),
    originalQuery := "SELECT 1", withAnalysis := false }

/-- The Postgres handler outcome at `wEQ`. -/
def wO2 : ExplainOutcome :=
  { executed := { sql := "EXPLAIN SELECT 1", params := none },
    result := pgFormatResult (wPD2 { sql := "EXPLAIN SELECT 1", params := none }),
    originalQuery := "SELECT 1", withAnalysis := false }

/-- C10 witness: on the same input, the MySQL-backed and Postgres-backed
sessions receive the identical rewritten query. -/
theorem C10_explain_rewrite_engine_independent_witness :
    wO1.executed = wO2.executed ∧
    wO1.executed = { sql := explainSqlOf wEQ, params := wEQ.params } :=
  C10_explain_rewrite_engine_independent wMysqlMgr wPgMgr wEQ wMD2 wPD2 wO1 wO2
    rfl rfl

/-- A MySQL catalog fixture for `orders(id PK, customer_id FK ->
customers.id)`. -/
def wMysqlCat : MysqlCatalog :=
  { db_name := some "dbmcp"
    tables := ["customers", "orders"]
    columnsOf := fun t =>
      if t = "orders" then
        [{ column_name := "id", data_type := "int", is_nullable := "NO",
           column_default := none, column_key := "PRI" },
         { column_name := "customer_id", data_type := "int", is_nullable := "YES",
           column_default := none, column_key := "MUL" }]
      else []
    fksOf := fun t =>
      if t = "orders" then
        [{ column_name := "customer_id", referenced_table_name := "customers",
           referenced_column_name := "id", constraint_name := "orders_ibfk_1" }]
      else [] }

/-- The listing rows a live Postgres engine returns for the source's
unaliased `SELECT TABLE_NAME` in the orders/customers scenario: the
unquoted identifier is folded to lowercase, so the rows are keyed
"table_name". -/
def wPgLiveTablesRows : List NativeRow :=
  [[("table_name", SqlValue.str "customers")],
   [("table_name", SqlValue.str "orders")]]

/-- A live-Postgres catalog for the scenario: the `orders` metadata
(primary key flag and the declared foreign key) is present and correct
when the per-table queries are bound with `$1 = "orders"`, and the
queries match nothing when `$1` is the serialized undefined value. -/
def wPgLiveCat : PgCatalog :=
  { db_name := some "dbmcp"
    tablesRows := wPgLiveTablesRows
    columnsOf := fun p =>
      if p = some (SqlValue.str "orders") then
        [{ column_name := "id", data_type := "integer", is_nullable := "NO",
           column_default := none, is_primary_key := true },
         { column_name := "customer_id", data_type := "integer", is_nullable := "YES",
           column_default := none, is_primary_key := false }]
      else []
    fksOf := fun p =>
      if p = some (SqlValue.str "orders") then
        [{ column_name := "customer_id", foreign_table_name := "customers",
           foreign_column_name := "id", constraint_name := "orders_customer_id_fkey" }]
      else [] }

/-- C1: the claimed normalization holds for the MySQL adapter (whose
introspection queries alias every selected column), but the code is
buggy on the Postgres side: against the listing rows a live engine
returns (keyed "table_name", because the source's `SELECT TABLE_NAME`
is unquoted and unaliased) the case-sensitive `({ TABLE_NAME })`
destructure yields undefined, so the Postgres `introspect` returns
every table with an undefined name and empty columns and foreign keys —
no `TableSchema` named "orders" is produced even though the catalog
holds the declared primary-key and foreign-key metadata. -/
theorem C1_pg_introspect_loses_table_names :
    (∃ ts ∈ (mysqlIntrospectLayout wCfgMysql wMysqlCat).tables,
      ts.name = "orders" ∧
      ts.columns.map (fun c => (c.name, c.primary_key)) =
        [("id", true), ("customer_id", false)] ∧
      ts.foreign_keys =
        [{ column := "customer_id", foreign_table := "customers",
           foreign_column := "id", constraint_name := "orders_ibfk_1" }]) ∧
    (PostgresqlDatabaseManager.introspect { config := wCfgPg, conn := some wHandle }
        wPgLiveCat).result = .ok (pgIntrospectLayout wCfgPg wPgLiveCat) ∧
    wPgLiveCat.columnsOf (some (SqlValue.str "orders")) ≠ [] ∧
    wPgLiveCat.fksOf (some (SqlValue.str "orders")) ≠ [] ∧
    (pgIntrospectLayout wCfgPg wPgLiveCat).tables =
      [{ name := none, columns := [], foreign_keys := [] },
       { name := none, columns := [], foreign_keys := [] }] := by
  refine ⟨?_, rfl, by decide, by decide, by decide⟩
  exact ⟨{ name := "orders",
           columns := (wMysqlCat.columnsOf "orders").map mysqlMapColumn,
           foreign_keys := (wMysqlCat.fksOf "orders").map mysqlMapFk },
         by decide, by decide, by decide, by decide⟩

/-- Removing every element that satisfies a predicate that some element
satisfies strictly shrinks a list. -/
theorem length_filter_not_lt_of_find {α : Type} (l : List α) (p q : α → Bool)
    (x : α) (hq : ∀ a, q a = !(p a)) (h : l.find? p = some x) :
    (l.filter q).length < l.length := by
  induction l with
  | nil => simp at h
  | cons a l ih =>
    by_cases hp : p a = true
    · have hqa : q a = false := by rw [hq, hp]; rfl
      have hle := List.length_filter_le q l
      simp [List.filter_cons, hqa]
      omega
    · have hpa : p a = false := by
        cases hpq : p a
        · rfl
        · exact absurd hpq hp
      have hqa : q a = true := by rw [hq, hpa]; rfl
      simp only [List.find?_cons, hpa] at h
      have hlt := ih h
      simp [List.filter_cons, hqa]
      omega

/-- The `connCache` disposal hook nulls the evicted adapter's handle by
delegating to its `disconnect`, and (being a total function) never
re-raises. -/
theorem connCacheDispose_disconnects (v : AnyDatabaseManager) :
    (connCacheDispose v).manager = v.disconnect.manager ∧
    (connCacheDispose v).manager.connOf = none := by
  refine ⟨rfl, ?_⟩
  cases v with
  | mysql m =>
    obtain ⟨cf, conn⟩ := m
    cases conn <;> rfl
  | postgres p =>
    obtain ⟨cf, conn⟩ := p
    cases conn <;> rfl

/-- C4: a registry configured like `connCache` (capacity 100) never
exceeds 100 entries under `set`; inserting a fresh key into a registry
holding exactly 100 entries keeps it at 100, fires the disposal hook on
exactly one entry — the least recently used one — and that hook invokes
the evicted adapter's `disconnect` (leaving its handle null) and never
re-raises (the embedded hook is total). -/
theorem C4_capacity_eviction :
    (∀ (c : LruCache AnyDatabaseManager) (now : Nat) (k : String)
      (v : AnyDatabaseManager), c.maxEntries = 100 →
      c.entries.length ≤ 100 → (c.set now k v).1.entries.length ≤ 100) ∧
    (∀ (c : LruCache AnyDatabaseManager) (now : Nat) (k : String)
      (v : AnyDatabaseManager), c.maxEntries = 100 →
      c.entries.length = 100 → c.findEntry k = none →
      (c.set now k v).1.entries.length = 100 ∧
      ∃ lru, c.entries.getLast? = some lru ∧
        (c.set now k v).2 = [lru.value] ∧
        (connCacheDispose lru.value).manager.connOf = none) := by
  constructor
  · intro c now k v hmax hlen
    unfold LruCache.set
    cases hf : c.findEntry k with
    | some old =>
      simp only [LruCache.removeKey, List.length_cons]
      have hlt := length_filter_not_lt_of_find c.entries
        (fun e => e.key == k) (fun e => !(e.key == k)) old (fun a => rfl) hf
      omega
    | none =>
      by_cases hcap : c.maxEntries ≤ c.entries.length
      · rw [if_pos hcap]
        cases hlast : c.entries.getLast? with
        | none => simp
        | some lru =>
          simp only [List.length_cons, List.length_dropLast]
          omega
      · rw [if_neg hcap]
        simp only [List.length_cons]
        rw [hmax] at hcap
        omega
  · intro c now k v hmax hlen hf
    have hcap : c.maxEntries ≤ c.entries.length := by
      rw [hmax, hlen]
    have hne : c.entries ≠ [] := by
      intro h0
      rw [h0] at hlen
      simp at hlen
    have hsome : c.entries.getLast?.isSome := by
      cases hq : c.entries with
      | nil => exact absurd hq hne
      | cons a l => simp [hq, List.getLast?_concat, List.getLast?_isSome]
    cases hlast : c.entries.getLast? with
    | none =>
      rw [hlast] at hsome
      simp at hsome
    | some lru =>
      unfold LruCache.set
      rw [hf, if_pos hcap, hlast]
      refine ⟨?_, lru, rfl, rfl, (connCacheDispose_disconnects lru.value).2⟩
      simp only [List.length_cons, List.length_dropLast]
      omega

/-- One hundred registry entries with distinct keys "0".."99". -/
def wEntries : List (CacheEntry AnyDatabaseManager) :=
  (List.range 100).map
    (fun i => { key := toString i, value := .mysql wMysqlMgr, insertedAt := 0 })

/-- A `connCache`-shaped registry at capacity. -/
def wFullCache : LruCache AnyDatabaseManager :=
  { maxEntries := 100, ttl := 1000 * 60 * 5, entries := wEntries }

/-- C4 witness: inserting key "fresh" into the full 100-entry registry
keeps it at 100 entries and disposes exactly the least recently used
entry. -/
theorem C4_capacity_eviction_witness :
    (wFullCache.set 7 "fresh" (.postgres wPgMgr)).1.entries.length ≤ 100 ∧
    (wFullCache.set 7 "fresh" (.postgres wPgMgr)).1.entries.length = 100 ∧
    ∃ lru, wFullCache.entries.getLast? = some lru ∧
      (wFullCache.set 7 "fresh" (.postgres wPgMgr)).2 = [lru.value] ∧
      (connCacheDispose lru.value).manager.connOf = none := by
  refine ⟨?_, ?_⟩
  · exact C4_capacity_eviction.1 wFullCache 7 "fresh" (.postgres wPgMgr)
      rfl (by decide)
  · exact C4_capacity_eviction.2 wFullCache 7 "fresh" (.postgres wPgMgr)
      rfl (by decide) (by decide)

/-- C5: the registry's 5-minute time-to-live runs from insertion and is
not renewed by `get`: a fresh `get` at `t1` returns the value but leaves
the entry's `insertedAt` untouched, and a later `get` at any `t2` past
`t0 + 5min` misses, fires the entry's disposal hook, and surfaces to the
tool handlers as the "No connection found" failure on that next
lookup. -/
theorem C5_ttl_expiry (k : String) (v : AnyDatabaseManager) (t0 t1 t2 : Nat)
    (h01 : t0 ≤ t1) (h1 : t1 ≤ t0 + 1000 * 60 * 5)
    (h2 : t0 + 1000 * 60 * 5 < t2) :
    ((connCacheOf [⟨k, v, t0⟩]).get t1 k).1 = some v ∧
    ((connCacheOf [⟨k, v, t0⟩]).get t1 k).2.2 = [] ∧
    (((connCacheOf [⟨k, v, t0⟩]).get t1 k).2.1).findEntry k = some ⟨k, v, t0⟩ ∧
    ((((connCacheOf [⟨k, v, t0⟩]).get t1 k).2.1).get t2 k).1 = none ∧
    ((((connCacheOf [⟨k, v, t0⟩]).get t1 k).2.1).get t2 k).2.2 = [v] ∧
    (lookupConn (((connCacheOf [⟨k, v, t0⟩]).get t1 k).2.1) t2 k).1 =
      .error (.noConnectionFound k) := by
  have hfresh : ¬ ((1000 * 60 * 5 : Nat) < t1 - t0) := by omega
  have hstale : (1000 * 60 * 5 : Nat) < t2 - t0 := by omega
  simp [connCacheOf, LruCache.get, LruCache.findEntry, LruCache.removeKey,
    lookupConn, hfresh, hstale]

/-- C5 witness: an entry inserted at time 0 is still returned by a get
at 300000 ms (with `insertedAt` unrenewed) and is expired, disposed and
reported as "No connection found" at 300001 ms. -/
theorem C5_ttl_expiry_witness :
    ((connCacheOf [⟨"s", .mysql wMysqlMgr, 0⟩]).get 300000 "s").1 =
      some (.mysql wMysqlMgr) ∧
    ((connCacheOf [⟨"s", .mysql wMysqlMgr, 0⟩]).get 300000 "s").2.2 = [] ∧
    (((connCacheOf [⟨"s", .mysql wMysqlMgr, 0⟩]).get 300000 "s").2.1).findEntry "s" =
      some ⟨"s", .mysql wMysqlMgr, 0⟩ ∧
    ((((connCacheOf [⟨"s", .mysql wMysqlMgr, 0⟩]).get 300000 "s").2.1).get 300001 "s").1 =
      none ∧
    ((((connCacheOf [⟨"s", .mysql wMysqlMgr, 0⟩]).get 300000 "s").2.1).get 300001 "s").2.2 =
      [.mysql wMysqlMgr] ∧
    (lookupConn (((connCacheOf [⟨"s", .mysql wMysqlMgr, 0⟩]).get 300000 "s").2.1)
        300001 "s").1 =
      .error (.noConnectionFound "s") := by
  exact C5_ttl_expiry "s" (.mysql wMysqlMgr) 0 300000 300001
    (by omega) (by omega) (by omega)
